import Mathlib

/-!
Verification development for the per-call session bridge of the voice
assistant (src/index.js).  Strings are modelled as `List Char`; the
handlers attached to the two WebSocket connections are modelled as pure
step functions from a `Session` record and a typed inbound event to an
updated `Session` plus an ordered list of observable effects (messages
sent to either side, persistence calls, calendar calls).  External
collaborators (time parser, database, calendar, chat completions) are
modelled by an `Oracle` record of oracle results, universally quantified in
every theorem.  Persistence calls are recorded as effects and assumed
not to throw in the step semantics; the bounded-retry wrapper that
guards them is modelled separately (`withRetry`).
-/

/-- Strings of the JavaScript program, modelled as lists of characters. -/
abbrev Str := List Char

/-- Membership in the JavaScript regex class `\s` (whitespace). -/
def isSpaceJs (c : Char) : Bool :=
  c = ' ' || c = '\t' || c = '\n' || c.val = 11 || c.val = 12 || c = '\r' ||
  c.val = 0xa0 || c.val = 0x1680 || (0x2000 ≤ c.val && c.val ≤ 0x200a) ||
  c.val = 0x2028 || c.val = 0x2029 || c.val = 0x202f || c.val = 0x205f ||
  c.val = 0x3000 || c.val = 0xfeff

/-- Membership in the JavaScript regex class `\w` (word characters `[A-Za-z0-9_]`). -/
def isWordChar (c : Char) : Bool :=
  c.isAlphanum || c = '_'

/-- JavaScript `String.prototype.toLowerCase`, on the ASCII range used by the program. -/
def jsToLower (s : Str) : Str := s.map Char.toLower

/-- JavaScript `String.prototype.trim`: strip leading and trailing whitespace. -/
def jsTrim (s : Str) : Str :=
  ((s.dropWhile isSpaceJs).reverse.dropWhile isSpaceJs).reverse

/-- sanitizeInput (src/index.js:662): replace CR and LF by spaces, then trim. -/
def sanitizeInput (s : Str) : Str :=
  jsTrim (s.map (fun c => if c = '\n' ∨ c = '\r' then ' ' else c))

/-- Does `pat` occur as a prefix of the second argument (JS `startsWith`)? -/
def startsWithStr : Str → Str → Bool
  | [], _ => true
  | _ :: _, [] => false
  | p :: ps, c :: cs => p = c && startsWithStr ps cs

/-- JavaScript `String.prototype.includes`: does `pat` occur as a contiguous substring? -/
def containsStr (pat : Str) : Str → Bool
  | [] => startsWithStr pat []
  | c :: cs => startsWithStr pat (c :: cs) || containsStr pat cs

/-- Match `pat` as a prefix and return the remaining characters. -/
def matchPfx : Str → Str → Option Str
  | [], rest => some rest
  | _ :: _, [] => none
  | p :: ps, c :: cs => if c = p then matchPfx ps cs else none

/-- True when the list is empty or its head is not a word character
(the regex word-boundary test `\b` looking rightwards). -/
def headNotWord : Str → Bool
  | [] => true
  | c :: _ => !isWordChar c

/-- One global pass of `replace(/\bat\b/g, "@")` (src/index.js:913).
The Boolean argument records whether the character to the left of the
current scan position is a word character (for the `\b` assertions; at
the start of the string it is `false`).  After a match, scanning resumes
after the matched text, whose last character `t` is a word character. -/
def replaceAtGo : Bool → Str → Str
  | _, [] => []
  | false, 'a' :: 't' :: rest =>
    if headNotWord rest then '@' :: replaceAtGo true rest
    else 'a' :: replaceAtGo (isWordChar 'a') ('t' :: rest)
  | _, c :: cs => c :: replaceAtGo (isWordChar c) cs

/-- One global pass of `replace(/\bdot\b/g, ".")` (src/index.js:913). -/
def replaceDotGo : Bool → Str → Str
  | _, [] => []
  | false, 'd' :: 'o' :: 't' :: rest =>
    if headNotWord rest then '.' :: replaceDotGo true rest
    else 'd' :: replaceDotGo (isWordChar 'd') ('o' :: 't' :: rest)
  | _, c :: cs => c :: replaceDotGo (isWordChar c) cs

/-- reconstructEmail (src/index.js:911-915): lower-case, replace the
whole words "at" and "dot" by `@` and `.`, then delete all whitespace
(`replace(/\s+/g, "")`). -/
def reconstructEmail (s : Str) : Str :=
  (replaceDotGo false (replaceAtGo false (jsToLower s))).filter (fun c => !isSpaceJs c)

/-- spellOutEmail (src/index.js:902-904): `email.split("").join(" ")`. -/
def spellOutEmail (em : Str) : Str := List.intersperse ' ' em

/-- Split a list at the first occurrence of `x`, returning the parts
before and after it, or `none` when `x` does not occur. -/
def splitAtFirst (x : Char) : Str → Option (Str × Str)
  | [] => none
  | c :: cs =>
    if c = x then some ([], cs)
    else
      match splitAtFirst x cs with
      | some (a, b) => some (c :: a, b)
      | none => none

/-- Is there a `.` strictly before the last position of the list? -/
def dotBeforeLast : Str → Bool
  | [] => false
  | [_] => false
  | c :: c2 :: t => c = '.' || dotBeforeLast (c2 :: t)

/-- Is there a `.` at a position that is neither first nor last? -/
def hasInnerDot : Str → Bool
  | [] => false
  | _ :: t => dotBeforeLast t

/-- Membership test for the regex class `[^\s@]`. -/
def inEmailClass (c : Char) : Bool := !(c = '@' || isSpaceJs c)

/-- All characters belong to the class `[^\s@]`. -/
def allEmailClass (l : Str) : Bool := l.all inEmailClass

/-- validateEmail (src/index.js:922-925): the test
`/^[^\s@]+@[^\s@]+\.[^\s@]+$/.test(email)`.  Because the class
`[^\s@]` excludes `@`, the `@` consumed by the regex is necessarily the
first `@` of the string; the decision procedure splits there and checks
the local part, the character classes, and the existence of an inner
dot in the remainder. -/
def validateEmail (r : Str) : Bool :=
  match splitAtFirst '@' r with
  | none => false
  | some (a, rest) => !a.isEmpty && allEmailClass a && allEmailClass rest && hasInnerDot rest

/-- A list free of `@` and of whitespace. -/
def noAtNoWs (l : Str) : Prop := ∀ c ∈ l, c ≠ '@' ∧ isSpaceJs c = false

/-- The `local@domain.tld` shape exactly as claim C2 words it: only the
local part is required to be free of `@` and whitespace. -/
def emailShapeClaim (r : Str) : Prop :=
  ∃ a b c : Str, r = a ++ '@' :: (b ++ '.' :: c) ∧
    a ≠ [] ∧ noAtNoWs a ∧ b ≠ [] ∧ c ≠ []

/-- The denotation of the regex `^[^\s@]+@[^\s@]+\.[^\s@]+$`: all three
parts are nonempty and free of `@` and whitespace. -/
def emailRegexShape (r : Str) : Prop :=
  ∃ a b c : Str, r = a ++ '@' :: (b ++ '.' :: c) ∧
    a ≠ [] ∧ b ≠ [] ∧ c ≠ [] ∧ noAtNoWs a ∧ noAtNoWs b ∧ noAtNoWs c

/-- Outcome of the bounded-retry wrapper: the final result (`Except`
over the last error, `none` when no attempt was ever made), the number
of invocations of the wrapped operation, and the list of delays (in
milliseconds) waited between consecutive invocations. -/
structure RetryResult (E A : Type) where
  result : Except (Option E) A
  attempts : Nat
  delays : List Nat

/-- Loop body of withRetry (src/index.js:171-190).  `i` is the loop
index, `rem` the number of attempts still allowed (`maxRetries - i`),
`lastErr` the last stored error.  The k-th invocation of the operation
is `op (k-1)`; a delay of `min (baseDelay * 2 ^ i) maxDelay` is waited
only when a failed attempt is not the last one (`i < maxRetries - 1`). -/
def retryGo {E A : Type} (op : Nat → Except E A) (baseDelay maxDelay : Nat) :
    Nat → Nat → Option E → RetryResult E A
  | _, 0, lastErr => ⟨.error lastErr, 0, []⟩
  | i, rem + 1, _ =>
    match op i with
    | .ok a => ⟨.ok a, 1, []⟩
    | .error e =>
      match rem with
      | 0 => ⟨.error (some e), 1, []⟩
      | rem' + 1 =>
        let r := retryGo op baseDelay maxDelay (i + 1) (rem' + 1) (some e)
        ⟨r.result, r.attempts + 1, min (baseDelay * 2 ^ i) maxDelay :: r.delays⟩

/-- withRetry (src/index.js:171-190), with the operation modelled as a
function from the invocation index to that invocation's outcome. -/
def withRetry {E A : Type} (op : Nat → Except E A) (maxRetries baseDelay maxDelay : Nat) :
    RetryResult E A :=
  retryGo op baseDelay maxDelay 0 maxRetries none

/-- maxRetries of RETRY_OPTIONS (src/index.js:165-169). -/
def retryMaxRetries : Nat := 3

/-- baseDelay of RETRY_OPTIONS (src/index.js:165-169). -/
def retryBaseDelay : Nat := 1000

/-- maxDelay of RETRY_OPTIONS (src/index.js:165-169). -/
def retryMaxDelay : Nat := 5000

/-- Booking states of the scheduling sub-dialogue (src/index.js:251 and
the handlers below). -/
inductive BookingState
  | idle
  | awaiting_time
  | awaiting_email
  | confirm_email
  | confirm_existing_email
deriving DecidableEq

/-- A stored user record as read back from the database (name and email
may each be absent). -/
structure User where
  name : Option Str
  email : Option Str
deriving DecidableEq

/-- Per-call session state: the mutable fields the program attaches to
the OpenAI WebSocket object (src/index.js:244-253, 737), together with
the connection-scoped `streamSid` variable (src/index.js:129) and the
openness of the model connection (`openAiWs.readyState === OPEN`). -/
structure Session where
  fullDialogue : Str
  awaitingName : Bool
  phoneNumber : Option Str
  lastUserMessage : Option Str
  conversationId : Option Str
  sessionReady : Bool
  sendingFunctionCallOutput : Bool
  bookingState : BookingState
  preferred_time : Option Str
  email : Option Str
  callSid : Option Str
  streamSid : Option Str
  oaiOpen : Bool
deriving DecidableEq

/-- The session as initializeOpenAiWebSocket creates it (src/index.js:244-253). -/
def initialSession : Session :=
  { fullDialogue := []
    awaitingName := true
    phoneNumber := none
    lastUserMessage := none
    conversationId := none
    sessionReady := false
    sendingFunctionCallOutput := false
    bookingState := .idle
    preferred_time := none
    email := none
    callSid := none
    streamSid := none
    oaiOpen := true }

/-- Results of the external collaborators during one handled event:
chrono time parsing, the Twilio call lookup, the retry-wrapped database
reads, the knowledge base, the calendar insert, and the chat-completion
calls used at finalization.  `none` models a failed or empty result
(a thrown error for the calls whose failure is caught).
`parseTimeNoText` is the outcome of `chrono.parseDate` applied to the
missing (`undefined`) text of a `response.content.done` frame without a
`content` field: the outer `none` models the library call throwing
(caught by the handler catch block), `some r` models it returning `r`. -/
structure Oracle where
  parseUserTime : Str → Option Str
  parseTimeNoText : Option (Option Str)
  callPhone : Option Str
  user : Option User
  conv : Option Str
  lastConvSummary : Option (Option Str)
  kbAnswer : Option Str
  calendarEvent : Option Str
  bookingOk : Bool
  summary : Option Str
  nameExtract : Option Str
  emailExtract : Option Str

/-- The retry-wrapped database operations invoked by the handlers
(named after the imports from database-utils.js, src/index.js:26-37). -/
inductive DbOp
  | dbCreateOrGetUser (phone : Option Str)
  | dbUpdateUserName (phone : Option Str) (name : Str)
  | dbUpdateUserEmail (phone : Option Str) (email : Option Str)
  | dbCreateConversation (phone : Option Str) (callSid : Str)
  | dbUpdateConversation (cid : Str) (lastQuestion : Str) (lastAnswer : Option Str)
  | dbFinalizeConversation (cid : Str) (dialogue : Str) (summary : Str)
  | dbGetLastConversation (phone : Option Str)
  | dbCreateBooking (phone : Option Str) (cid : Option Str) (eventId : Str)
      (time : Str) (email : Option Str)
  | dbUpdateBookingState (phone : Option Str) (state : Str)
deriving DecidableEq

/-- Messages sent on the model connection. -/
inductive OaiOut
  | sessionUpdate
  | speak (prompt : Str)
  | cancelResponse
  | itemAssistant (content : Str)
  | functionOutput (output : Str)
  | responseCreateSummary (answer : Str)
  | audioAppend (payload : Str)
deriving DecidableEq

/-- Messages sent on the telephony connection. -/
inductive TwOut
  | media (sid : Option Str) (payload : Str)
  | clear (sid : Option Str)
deriving DecidableEq

/-- Observable effects of one handled event, in emission order. -/
inductive Effect
  | oaiSend (m : OaiOut)
  | twSend (m : TwOut)
  | db (op : DbOp)
  | calendarInsert (time : Str) (email : Option Str)
  | kbQuery (q : Str)
  | summaryRequest (dialogue : Str)
  | nameExtractRequest (summary : Str)
  | emailExtractRequest (summary : Str)
deriving DecidableEq

/-- A parsed function-call completion (`response.function_call_arguments.done`). -/
inductive FnCall
  | accessKb (question : Str)
  | schedule (preferredTime : Option Str) (email : Option Str)
  | otherFn (name : Str)
deriving DecidableEq

/-- Typed inbound events of the model connection, as discriminated by
handleOpenAiMessage (src/index.js:340-659).  `malformed` is an
unparseable frame (the JSON.parse throw caught at src/index.js:651);
`unknown` is a parsed frame whose `type` matches no handled case;
`audioDelta none` is a `response.audio.delta` without a `delta` field.
`contentDone none` and `audioTranscriptDone none` are frames of those
types lacking their text field: the handler still runs with the value
`undefined`, so the dialogue append at src/index.js:523 and 572 coerces
it to the literal text "undefined" before any later field access
throws.  The user transcript is modelled with its text present: a
missing transcript is caught by the falsy guard at src/index.js:585
before any append, and the state-dependent flow then throws on its
first string-method access (caught) or hands the undefined value to
the external time parser. -/
inductive OaiEvent
  | sessionCreated
  | sessionUpdated
  | speechStarted
  | functionCallDone (f : FnCall)
  | audioDelta (delta : Option Str)
  | contentDone (content : Option Str)
  | audioTranscriptDone (transcript : Option Str)
  | userTranscript (transcript : Str)
  | unknown (tag : Str)
  | malformed
deriving DecidableEq

/-- Typed inbound events of the telephony connection, as discriminated
by handleTwilioMessage (src/index.js:720-752).  A `none` payload models
a frame whose nested payload object is missing, so that the field
access throws and is caught (no state change). -/
inductive TwEvent
  | media (payload : Option Str)
  | start (payload : Option (Str × Str))
  | stop
  | other (tag : Str)
  | malformed
deriving DecidableEq

/-- All events one session can process: the model-connection open
handler (src/index.js:133-136), the two message handlers, and the
model-connection close handler (src/index.js:219-227). -/
inductive Event
  | connOpen
  | oai (e : OaiEvent)
  | tw (e : TwEvent)
  | oaiClose
deriving DecidableEq

/-- The literal the confirmation reply is compared against (src/index.js:1017). -/
def yesStr : Str := "yes".toList

/-- Prompt of askForSuitableTime (src/index.js:930). -/
def suitableTimePrompt : Str :=
  "Sure! I'd be happy to book a training session for you. What time would suit you best for the training session?".toList

/-- Re-prompt on an unparseable time (src/index.js:542 and 603). -/
def timeClarifyPrompt : Str :=
  "I'm sorry, I couldn't understand the time you provided. Could you please specify a different time that suits you?".toList

/-- Re-prompt on an invalid reconstructed email (src/index.js:624). -/
def emailInvalidPrompt : Str :=
  "The email address you provided doesn't seem to be valid. Could you please spell it out again?".toList

/-- Prompt asking for a new spelled-out email (src/index.js:967 and 983). -/
def newEmailPrompt : Str :=
  "Please provide your email address so I can send you the meeting details. Please spell it out for me.".toList

/-- Prompt asking for a new email after declining the stored one (src/index.js:1288). -/
def newEmailPrompt2 : Str :=
  "No problem! Please spell out the email address you'd like to use for this booking.".toList

/-- Prompt offering to reuse the stored email (src/index.js:952). -/
def storedEmailPrompt (em : Str) : Str :=
  "I see that I have your email address on file (".toList ++ spellOutEmail em ++
  "). Would you like me to use this email for the booking? Please say yes or no.".toList

/-- Prompt of confirmEmail (src/index.js:1000). -/
def confirmEmailPrompt (em : Str) : Str :=
  "Thank you! Just to confirm, your email address is spelled as: ".toList ++ spellOutEmail em ++
  ". Is that correct? Please say \"yes\" or \"no\".".toList

/-- Success message after booking (src/index.js:477, 1020). -/
def bookSuccessPrompt : Str :=
  "Your training session has been booked successfully! I've sent the meeting details to your email. Looking forward to your training session!".toList

/-- Success message of the stored-email flow (src/index.js:1258). -/
def bookSuccessPrompt2 : Str :=
  "Perfect! Your training session has been booked successfully! I've sent the meeting details to your email. Looking forward to your training session!".toList

/-- Spoken failure message after a failed booking (src/index.js:491, 1034, 1272). -/
def bookFailPrompt : Str :=
  "I'm sorry, I encountered an issue while booking your training session. Please try again later.".toList

/-- Intermediate message while the knowledge base is queried (src/index.js:395). -/
def checkingMessage : Str :=
  "Give me a second, I'm checking my knowledge.".toList

/-- Fallback when the knowledge base gives no answer (src/index.js:448). -/
def kbFallbackMessage : Str :=
  "I'm sorry, I couldn't access the knowledge base at this time.".toList

/-- NEW_USER_PROMPT (src/index.js:755). -/
def newUserPrompt : Str :=
  "You are Marcus, a friendly Pokémon trainer AI assistant. Introduce yourself briefly and ask for the user's name.".toList

/-- RETURNING_USER_MESSAGE_TEMPLATE (src/index.js:93) with both
placeholders substituted. -/
def returningUserPrompt (name lastTopic : Str) : Str :=
  "Nice to see you again, ".toList ++ name ++
  "! Your last conversation was about ".toList ++ lastTopic ++
  ". Do you want to continue that topic or do you have another question?".toList

/-- Default last topic when no summary is stored (src/index.js:796). -/
def ourIntroduction : Str := "our introduction".toList

/-- Default stored when no question is available (src/index.js:271). -/
def noQuestionStr : Str := "No question".toList

/-- The text a JavaScript template literal produces for a missing
(`undefined`) value, as in the dialogue appends at src/index.js:523
and 572. -/
def jsUndefined : Str := "undefined".toList

/-- Anchored prefix alternation of summarizeLastTopic
(`replace(/^The user |^User |^The AI |^AI /, "")`, src/index.js:835). -/
def dropSummaryPrefix (s : Str) : Str :=
  match matchPfx "The user ".toList s with
  | some r => r
  | none =>
    match matchPfx "User ".toList s with
    | some r => r
    | none =>
      match matchPfx "The AI ".toList s with
      | some r => r
      | none =>
        match matchPfx "AI ".toList s with
        | some r => r
        | none => s

/-- First-occurrence removal of `asked (about|for) ` (src/index.js:836). -/
def removeAskedGo : Str → Str
  | [] => []
  | c :: cs =>
    match matchPfx "asked about ".toList (c :: cs) with
    | some rest => rest
    | none =>
      match matchPfx "asked for ".toList (c :: cs) with
      | some rest => rest
      | none => c :: removeAskedGo cs

/-- summarizeLastTopic (src/index.js:832-848). -/
def summarizeLastTopic (summary : Str) : Str :=
  let c1 := removeAskedGo (dropSummaryPrefix summary)
  let c2 :=
    match matchPfx "The conversation was about ".toList c1 with
    | some r => r
    | none => c1
  let mainTopic := jsTrim (c2.takeWhile (fun c => c ≠ '.'))
  if 50 < mainTopic.length then mainTopic.take 47 ++ "...".toList else mainTopic

/-- updateLastConversation (src/index.js:260-274): an update effect on
the conversation record when a conversation id is present, nothing (a
logged early return) otherwise. -/
def updateLastConversation (s : Session) (question : Option Str) (answer : Option Str) :
    List Effect :=
  match s.conversationId with
  | none => []
  | some cid =>
    [Effect.db (.dbUpdateConversation cid (match question with
      | some q => q
      | none => noQuestionStr) answer)]

/-- bookTrainingSession (src/index.js:1060-1127): returns whether the
booking succeeded, plus the external calls made.  An absent preferred
time fails immediately before any external call; otherwise the calendar
insert is attempted once, and only on its success are the booking
record created and the user's email updated. -/
def bookTrainingSession (env : Oracle) (s : Session) (pt : Option Str) (em : Option Str) :
    Bool × List Effect :=
  match pt with
  | none => (false, [])
  | some t =>
    match env.calendarEvent with
    | none => (false, [Effect.calendarInsert t em])
    | some evtId =>
      if env.bookingOk then
        (true, [Effect.calendarInsert t em,
                Effect.db (.dbCreateBooking s.phoneNumber s.conversationId evtId t em),
                Effect.db (.dbUpdateUserEmail s.phoneNumber em)])
      else
        (false, [Effect.calendarInsert t em,
                 Effect.db (.dbCreateBooking s.phoneNumber s.conversationId evtId t em)])

/-- askForSuitableTime (src/index.js:929-943). -/
def askForSuitableTime (s : Session) : Session × List Effect :=
  ({ s with bookingState := .awaiting_time },
   [Effect.oaiSend (.speak suitableTimePrompt),
    Effect.db (.dbUpdateBookingState s.phoneNumber "awaiting_time".toList)])

/-- askForEmail (src/index.js:946-996): look the user up; with a stored
email, store it on the session and move to `confirm_existing_email`;
otherwise (including a lookup failure, whose catch block sends the same
prompt) ask for a spelled-out email and move to `awaiting_email`. -/
def askForEmail (env : Oracle) (s : Session) : Session × List Effect :=
  match env.user with
  | some u =>
    match u.email with
    | some em =>
      ({ s with email := some em, bookingState := .confirm_existing_email },
       [Effect.db (.dbCreateOrGetUser s.phoneNumber),
        Effect.oaiSend (.speak (storedEmailPrompt em))])
    | none =>
      ({ s with bookingState := .awaiting_email },
       [Effect.db (.dbCreateOrGetUser s.phoneNumber),
        Effect.oaiSend (.speak newEmailPrompt)])
  | none =>
    ({ s with bookingState := .awaiting_email },
     [Effect.db (.dbCreateOrGetUser s.phoneNumber),
      Effect.oaiSend (.speak newEmailPrompt)])

/-- confirmEmail (src/index.js:999-1013). -/
def confirmEmail (s : Session) (em : Str) : Session × List Effect :=
  ({ s with bookingState := .confirm_email },
   [Effect.oaiSend (.speak (confirmEmailPrompt em)),
    Effect.db (.dbUpdateBookingState s.phoneNumber "confirm_email".toList)])

/-- handleEmailConfirmation (src/index.js:1016-1051): on an exact "yes",
attempt the booking and return to `idle` with a success or failure
message; otherwise re-enter email collection via askForEmail. -/
def handleEmailConfirmation (env : Oracle) (s : Session) (confirmation : Str)
    (em : Option Str) : Session × List Effect :=
  if confirmation = yesStr then
    if (bookTrainingSession env s s.preferred_time em).1 then
      ({ s with bookingState := .idle },
       (bookTrainingSession env s s.preferred_time em).2 ++
       [Effect.oaiSend (.speak bookSuccessPrompt),
        Effect.db (.dbUpdateBookingState s.phoneNumber "idle".toList)])
    else
      ({ s with bookingState := .idle },
       (bookTrainingSession env s s.preferred_time em).2 ++
       [Effect.oaiSend (.speak bookFailPrompt),
        Effect.db (.dbUpdateBookingState s.phoneNumber "idle".toList)])
  else
    askForEmail env s

/-- handleExistingEmailConfirmation (src/index.js:1253-1302): when the
reply contains "yes", attempt the booking with the stored email and
return to `idle`; otherwise ask for a new spelled-out email. -/
def handleExistingEmailConfirmation (env : Oracle) (s : Session) (confirmation : Str) :
    Session × List Effect :=
  if containsStr yesStr confirmation then
    if (bookTrainingSession env s s.preferred_time s.email).1 then
      ({ s with bookingState := .idle },
       (bookTrainingSession env s s.preferred_time s.email).2 ++
       [Effect.oaiSend (.speak bookSuccessPrompt2),
        Effect.db (.dbUpdateBookingState s.phoneNumber "idle".toList)])
    else
      ({ s with bookingState := .idle },
       (bookTrainingSession env s s.preferred_time s.email).2 ++
       [Effect.oaiSend (.speak bookFailPrompt),
        Effect.db (.dbUpdateBookingState s.phoneNumber "idle".toList)])
  else
    ({ s with bookingState := .awaiting_email },
     [Effect.oaiSend (.speak newEmailPrompt2),
      Effect.db (.dbUpdateBookingState s.phoneNumber "awaiting_email".toList)])

/-- handleIncomingCall (src/index.js:758-812): fetch the caller's
number, create or fetch the user and the conversation record, read the
last conversation, and send the greeting prompt.  Each failing external
call throws into the surrounding catch, keeping the mutations made so
far. -/
def handleIncomingCall (env : Oracle) (s : Session) : Session × List Effect :=
  match s.callSid with
  | none => (s, [])
  | some cid =>
    match env.callPhone with
    | none => (s, [])
    | some phone =>
      match env.user with
      | none => ({ s with phoneNumber := some phone },
                 [Effect.db (.dbCreateOrGetUser (some phone))])
      | some u =>
        match env.conv with
        | none => ({ s with phoneNumber := some phone },
                   [Effect.db (.dbCreateOrGetUser (some phone)),
                    Effect.db (.dbCreateConversation (some phone) cid)])
        | some convId =>
          match env.lastConvSummary with
          | none => ({ s with phoneNumber := some phone, conversationId := some convId },
                     [Effect.db (.dbCreateOrGetUser (some phone)),
                      Effect.db (.dbCreateConversation (some phone) cid),
                      Effect.db (.dbGetLastConversation (some phone))])
          | some lastSum =>
            ({ s with phoneNumber := some phone, conversationId := some convId },
             [Effect.db (.dbCreateOrGetUser (some phone)),
              Effect.db (.dbCreateConversation (some phone) cid),
              Effect.db (.dbGetLastConversation (some phone)),
              Effect.oaiSend (.speak (match u.name with
                | some nm => returningUserPrompt nm (match lastSum with
                    | some sum => summarizeLastTopic sum
                    | none => ourIntroduction)
                | none => newUserPrompt))])

/-- finalizeConversation (src/index.js:1130-1184): with no conversation
id, a logged no-op; otherwise request a summary (a failure throws into
the catch block), then run the two extractions, persisting an extracted
name or email, and finalize the conversation record.  No session field
is written. -/
def finalizeConversation (env : Oracle) (s : Session) : Session × List Effect :=
  match s.conversationId with
  | none => (s, [])
  | some cid =>
    match env.summary with
    | none => (s, [Effect.summaryRequest s.fullDialogue])
    | some sum =>
      (s, [Effect.summaryRequest s.fullDialogue] ++
        (match env.nameExtract with
         | some nm => [Effect.nameExtractRequest sum,
                       Effect.db (.dbUpdateUserName s.phoneNumber nm)]
         | none => [Effect.nameExtractRequest sum]) ++
        (match env.emailExtract with
         | some em => [Effect.emailExtractRequest sum,
                       Effect.db (.dbUpdateUserEmail s.phoneNumber (some em))]
         | none => [Effect.emailExtractRequest sum]) ++
        [Effect.db (.dbFinalizeConversation cid s.fullDialogue sum)])

/-- The `response.function_call_arguments.done` branch of
handleOpenAiMessage (src/index.js:382-506). -/
def handleFunctionCall (env : Oracle) (s : Session) : FnCall → Session × List Effect
  | .accessKb q =>
    match env.kbAnswer with
    | some ans =>
      ({ s with
          fullDialogue := s.fullDialogue ++ "AI: ".toList ++ checkingMessage ++ ['\n'],
          sendingFunctionCallOutput := true },
       [Effect.oaiSend (.itemAssistant checkingMessage), Effect.kbQuery q,
        Effect.oaiSend (.functionOutput ans), Effect.oaiSend (.responseCreateSummary ans)])
    | none =>
      ({ s with
          fullDialogue := s.fullDialogue ++ "AI: ".toList ++ checkingMessage ++ ['\n'] ++
            "AI: ".toList ++ kbFallbackMessage ++ ['\n'] },
       [Effect.oaiSend (.itemAssistant checkingMessage), Effect.kbQuery q,
        Effect.oaiSend (.itemAssistant kbFallbackMessage)])
  | .schedule pt em =>
    if (bookTrainingSession env s pt em).1 then
      ({ s with bookingState := .idle },
       (bookTrainingSession env s pt em).2 ++
       [Effect.oaiSend (.speak bookSuccessPrompt),
        Effect.db (.dbUpdateBookingState s.phoneNumber "idle".toList)])
    else
      ({ s with bookingState := .idle },
       (bookTrainingSession env s pt em).2 ++
       [Effect.oaiSend (.speak bookFailPrompt),
        Effect.db (.dbUpdateBookingState s.phoneNumber "idle".toList)])
  | .otherFn _ => (s, [])

/-- The booking-intent heuristic on finalized assistant text (src/index.js:531). -/
def mentionsTraining (content : Str) : Bool :=
  containsStr "training session".toList (jsToLower content) ||
  containsStr "book a training".toList (jsToLower content) ||
  containsStr "schedule a training".toList (jsToLower content)

/-- Booking-flow part of the `response.content.done` branch, applied to
the session with the assistant text already appended. -/
def handleContentDoneFlow (env : Oracle) (s1 : Session) (content : Str) :
    Session × List Effect :=
  match s1.bookingState with
  | .idle =>
    if mentionsTraining content then
      ((askForSuitableTime s1).1,
       updateLastConversation s1 s1.lastUserMessage (some content) ++ (askForSuitableTime s1).2)
    else
      (s1, updateLastConversation s1 s1.lastUserMessage (some content))
  | .awaiting_time =>
    match env.parseUserTime content with
    | some t =>
      ((askForEmail env { s1 with preferred_time := some t }).1,
       updateLastConversation s1 s1.lastUserMessage (some content) ++
       [Effect.db (.dbUpdateBookingState s1.phoneNumber "awaiting_email".toList)] ++
       (askForEmail env { s1 with preferred_time := some t }).2)
    | none =>
      (s1, updateLastConversation s1 s1.lastUserMessage (some content) ++
           [Effect.oaiSend (.speak timeClarifyPrompt)])
  | .confirm_email =>
    ((handleEmailConfirmation env s1 (jsToLower (jsTrim content)) s1.email).1,
     updateLastConversation s1 s1.lastUserMessage (some content) ++
     (handleEmailConfirmation env s1 (jsToLower (jsTrim content)) s1.email).2)
  | _ => (s1, updateLastConversation s1 s1.lastUserMessage (some content))

/-- Append one assistant line to the dialogue log. -/
def appendAiText (s : Session) (content : Str) : Session :=
  { s with fullDialogue := s.fullDialogue ++ "AI: ".toList ++ content ++ ['\n'] }

/-- The `response.content.done` branch on a frame whose `content` field
is missing (src/index.js:520-564 with `response.content = undefined`),
applied to the session with "AI: undefined" already appended: the
conversation-record update at src/index.js:526 still runs (with an
undefined answer, modelled `none`); then in `idle` the
`.toLowerCase()` access, and in `confirm_email` the `.trim()` access,
throw into the handler catch block; in `awaiting_time` the undefined
value is handed to chrono (outcome `env.parseTimeNoText`); the other
states do nothing further. -/
def handleContentDoneNoText (env : Oracle) (s1 : Session) : Session × List Effect :=
  match s1.bookingState with
  | .idle => (s1, updateLastConversation s1 s1.lastUserMessage none)
  | .awaiting_time =>
    match env.parseTimeNoText with
    | none => (s1, updateLastConversation s1 s1.lastUserMessage none)
    | some none =>
      (s1, updateLastConversation s1 s1.lastUserMessage none ++
           [Effect.oaiSend (.speak timeClarifyPrompt)])
    | some (some t) =>
      ((askForEmail env { s1 with preferred_time := some t }).1,
       updateLastConversation s1 s1.lastUserMessage none ++
       [Effect.db (.dbUpdateBookingState s1.phoneNumber "awaiting_email".toList)] ++
       (askForEmail env { s1 with preferred_time := some t }).2)
  | .confirm_email => (s1, updateLastConversation s1 s1.lastUserMessage none)
  | _ => (s1, updateLastConversation s1 s1.lastUserMessage none)

/-- The `response.content.done` branch of handleOpenAiMessage
(src/index.js:520-564): unless a function-call output is being spoken,
append the assistant text to the dialogue (a missing `content` field is
coerced to the literal "undefined" by the template literal at
src/index.js:523), update the conversation record, and drive the
booking flow from the current state. -/
def handleContentDone (env : Oracle) (s : Session) (content : Option Str) :
    Session × List Effect :=
  if s.sendingFunctionCallOutput then
    ({ s with sendingFunctionCallOutput := false }, [])
  else
    match content with
    | some c => handleContentDoneFlow env (appendAiText s c) c
    | none => handleContentDoneNoText env (appendAiText s jsUndefined)

/-- Sanitize-and-append block for user speech (src/index.js:585-592):
a transcript that is nonempty after trimming is sanitized, appended to
the dialogue, and stored as the last user message. -/
def appendUserText (s : Session) (t : Str) : Session :=
  if jsTrim t ≠ [] then
    { s with
        fullDialogue := s.fullDialogue ++ "User: ".toList ++ sanitizeInput t ++ ['\n'],
        lastUserMessage := some (sanitizeInput t) }
  else s

/-- Booking-flow part of the user-transcript branch, applied to the
session with the user text already appended. -/
def handleUserTranscriptFlow (env : Oracle) (s1 : Session) (t : Str) :
    Session × List Effect :=
  match s1.bookingState with
  | .awaiting_time =>
    match env.parseUserTime t with
    | some pt =>
      ((askForEmail env { s1 with preferred_time := some pt }).1,
       [Effect.db (.dbUpdateBookingState s1.phoneNumber "awaiting_email".toList)] ++
       (askForEmail env { s1 with preferred_time := some pt }).2 ++
       updateLastConversation (askForEmail env { s1 with preferred_time := some pt }).1
         (askForEmail env { s1 with preferred_time := some pt }).1.lastUserMessage none)
    | none =>
      (s1, [Effect.oaiSend (.speak timeClarifyPrompt)] ++
           updateLastConversation s1 s1.lastUserMessage none)
  | .awaiting_email =>
    if validateEmail (reconstructEmail t) then
      ((confirmEmail { s1 with email := some (reconstructEmail t) } (reconstructEmail t)).1,
       [Effect.db (.dbUpdateBookingState s1.phoneNumber "confirm_email".toList)] ++
       (confirmEmail { s1 with email := some (reconstructEmail t) } (reconstructEmail t)).2 ++
       updateLastConversation
         (confirmEmail { s1 with email := some (reconstructEmail t) } (reconstructEmail t)).1
         (confirmEmail { s1 with email := some (reconstructEmail t) } (reconstructEmail t)).1.lastUserMessage
         none)
    else
      (s1, [Effect.oaiSend (.speak emailInvalidPrompt)] ++
           updateLastConversation s1 s1.lastUserMessage none)
  | .confirm_email =>
    ((handleEmailConfirmation env s1 (jsToLower (jsTrim t)) s1.email).1,
     (handleEmailConfirmation env s1 (jsToLower (jsTrim t)) s1.email).2 ++
     updateLastConversation (handleEmailConfirmation env s1 (jsToLower (jsTrim t)) s1.email).1
       (handleEmailConfirmation env s1 (jsToLower (jsTrim t)) s1.email).1.lastUserMessage none)
  | .confirm_existing_email =>
    ((handleExistingEmailConfirmation env s1 (jsToLower (jsTrim t))).1,
     (handleExistingEmailConfirmation env s1 (jsToLower (jsTrim t))).2 ++
     updateLastConversation (handleExistingEmailConfirmation env s1 (jsToLower (jsTrim t))).1
       (handleExistingEmailConfirmation env s1 (jsToLower (jsTrim t))).1.lastUserMessage none)
  | .idle =>
    (s1, updateLastConversation s1 s1.lastUserMessage none)

/-- The transcript-completion branch for user speech
(src/index.js:580-649): sanitize and append the user text, drive the
booking flow from the current state, then update the conversation
record. -/
def handleUserTranscript (env : Oracle) (s : Session) (t : Str) :
    Session × List Effect :=
  handleUserTranscriptFlow env (appendUserText s t) t

/-- handleOpenAiMessage (src/index.js:340-659), as a function from the
typed event to the updated session and the effects, in emission order. -/
def handleOpenAiMessage (env : Oracle) (s : Session) : OaiEvent → Session × List Effect
  | .sessionCreated => (s, [Effect.oaiSend .sessionUpdate])
  | .sessionUpdated =>
    match s.callSid with
    | some _ =>
      ((handleIncomingCall env { s with sessionReady := true }).1,
       (handleIncomingCall env { s with sessionReady := true }).2)
    | none => ({ s with sessionReady := true }, [])
  | .speechStarted =>
    (s, [Effect.twSend (.clear s.streamSid), Effect.oaiSend .cancelResponse])
  | .functionCallDone f => handleFunctionCall env s f
  | .audioDelta (some payload) => (s, [Effect.twSend (.media s.streamSid payload)])
  | .audioDelta none => (s, [])
  | .contentDone content => handleContentDone env s content
  | .audioTranscriptDone (some t) =>
    ({ s with fullDialogue := s.fullDialogue ++ "AI: ".toList ++ t ++ ['\n'] },
     updateLastConversation s s.lastUserMessage (some t))
  | .audioTranscriptDone none =>
    ({ s with fullDialogue := s.fullDialogue ++ "AI: ".toList ++ jsUndefined ++ ['\n'] },
     updateLastConversation s s.lastUserMessage none)
  | .userTranscript t => handleUserTranscript env s t
  | .unknown _ => (s, [])
  | .malformed => (s, [])

/-- handleTwilioMessage (src/index.js:720-752). -/
def handleTwilioMessage (env : Oracle) (s : Session) : TwEvent → Session × List Effect
  | .media (some payload) =>
    if s.oaiOpen then (s, [Effect.oaiSend (.audioAppend payload)]) else (s, [])
  | .media none => (s, [])
  | .start (some (sid, cid)) =>
    ({ s with streamSid := some sid, callSid := some cid }, [])
  | .start none => (s, [])
  | .stop => finalizeConversation env s
  | .other _ => (s, [])
  | .malformed => (s, [])

/-- One handled event of a session: the open handler of the model
connection (src/index.js:133-136) sends the configuration payload; the
two message handlers dispatch; the close handler of the model
connection (src/index.js:219-227) finalizes when a conversation id is
present. -/
def step (env : Oracle) (s : Session) : Event → Session × List Effect
  | .connOpen => (s, [Effect.oaiSend .sessionUpdate])
  | .oai e => handleOpenAiMessage env s e
  | .tw e => handleTwilioMessage env s e
  | .oaiClose =>
    match s.conversationId with
    | some _ => finalizeConversation env s
    | none => (s, [])

/-- Process a list of events in arrival order, concatenating effects. -/
def runEvents (env : Oracle) (s : Session) : List Event → Session × List Effect
  | [] => (s, [])
  | e :: es =>
    ((runEvents env (step env s e).1 es).1,
     (step env s e).2 ++ (runEvents env (step env s e).1 es).2)

/-- Recognize the configuration-payload send among effects. -/
def isSessionUpdateEff : Effect → Bool
  | .oaiSend .sessionUpdate => true
  | _ => false

/-- Number of configuration-payload sends in an effect list. -/
def countSessionUpdates (l : List Effect) : Nat := l.countP isSessionUpdateEff

/-- Recognize a calendar-insert attempt among effects. -/
def isCalendarEff : Effect → Bool
  | .calendarInsert _ _ => true
  | _ => false

/-- Number of calendar-booking attempts in an effect list. -/
def countCalendarAttempts (l : List Effect) : Nat := l.countP isCalendarEff

/-- The events that cause sendSessionUpdate to run: the open handler's
timer (src/index.js:133-136) and the `session.created` branch
(src/index.js:344-347). -/
def isConfigTrigger : Event → Bool
  | .connOpen => true
  | .oai .sessionCreated => true
  | _ => false

/-- An oracle in which every external call fails or returns nothing. -/
def noOracle : Oracle :=
  { parseUserTime := fun _ => none
    parseTimeNoText := none
    callPhone := none
    user := none
    conv := none
    lastConvSummary := none
    kbAnswer := none
    calendarEvent := none
    bookingOk := false
    summary := none
    nameExtract := none
    emailExtract := none }

/-- An oracle whose user lookup returns a stored email and whose time
parser accepts everything. -/
def oracleStoredEmail : Oracle :=
  { noOracle with
      user := some ⟨none, some "john@example.com".toList⟩
      parseUserTime := fun _ => some "2025-01-07T15:00:00.000Z".toList }

/-- An oracle whose summarization call succeeds. -/
def oracleSummary : Oracle :=
  { noOracle with summary := some "The user booked nothing.".toList }

/-- A session waiting for the preferred time. -/
def sessionAwaitTime : Session :=
  { initialSession with bookingState := .awaiting_time }

/-- A session with a conversation record already created. -/
def sessionConvSet : Session :=
  { initialSession with conversationId := some "CA123".toList }

/-- A session in `confirm_email` with a stored time and candidate email. -/
def sessionConfirmEmail : Session :=
  { initialSession with
      bookingState := .confirm_email
      preferred_time := some "2025-01-07T15:00:00.000Z".toList
      email := some "john@example.com".toList }

/-- Claim C1: the retry adapter with `maxRetries = 3`, `baseDelay =
1000`, `maxDelay = 5000` makes at most 3 invocations; a success on any
invocation stops further invocations and is returned; the delay before
invocation `j + 2` equals `min (baseDelay * 2 ^ j) maxDelay`; and when
all 3 invocations fail, the last failure is re-raised. -/
theorem claim_C1 {E A : Type} (op : Nat → Except E A) :
    (withRetry op retryMaxRetries retryBaseDelay retryMaxDelay).attempts ≤ retryMaxRetries
    ∧ (∀ a, op 0 = .ok a →
        (withRetry op retryMaxRetries retryBaseDelay retryMaxDelay).result = .ok a ∧
        (withRetry op retryMaxRetries retryBaseDelay retryMaxDelay).attempts = 1)
    ∧ (∀ e0 a, op 0 = .error e0 → op 1 = .ok a →
        (withRetry op retryMaxRetries retryBaseDelay retryMaxDelay).result = .ok a ∧
        (withRetry op retryMaxRetries retryBaseDelay retryMaxDelay).attempts = 2 ∧
        (withRetry op retryMaxRetries retryBaseDelay retryMaxDelay).delays = [1000])
    ∧ (∀ e0 e1 a, op 0 = .error e0 → op 1 = .error e1 → op 2 = .ok a →
        (withRetry op retryMaxRetries retryBaseDelay retryMaxDelay).result = .ok a ∧
        (withRetry op retryMaxRetries retryBaseDelay retryMaxDelay).attempts = 3 ∧
        (withRetry op retryMaxRetries retryBaseDelay retryMaxDelay).delays = [1000, 2000])
    ∧ (∀ e0 e1 e2, op 0 = .error e0 → op 1 = .error e1 → op 2 = .error e2 →
        (withRetry op retryMaxRetries retryBaseDelay retryMaxDelay).result = .error (some e2) ∧
        (withRetry op retryMaxRetries retryBaseDelay retryMaxDelay).attempts = 3 ∧
        (withRetry op retryMaxRetries retryBaseDelay retryMaxDelay).delays = [1000, 2000])
    ∧ (∀ j, j < (withRetry op retryMaxRetries retryBaseDelay retryMaxDelay).delays.length →
        (withRetry op retryMaxRetries retryBaseDelay retryMaxDelay).delays.getD j 0 =
          min (retryBaseDelay * 2 ^ j) retryMaxDelay) := by
  have h3 : retryMaxRetries = 3 := rfl
  cases h0 : op 0 with
  | ok a0 =>
    simp [withRetry, retryGo, h0, retryMaxRetries, retryBaseDelay, retryMaxDelay]
  | error e0 =>
    cases h1 : op 1 with
    | ok a1 =>
      simp [withRetry, retryGo, h0, h1, retryMaxRetries, retryBaseDelay, retryMaxDelay]
    | error e1 =>
      cases h2 : op 2 with
      | ok a2 =>
        simp [withRetry, retryGo, h0, h1, h2, retryMaxRetries, retryBaseDelay, retryMaxDelay]
        intro j hj
        interval_cases j <;> decide
      | error e2 =>
        simp [withRetry, retryGo, h0, h1, h2, retryMaxRetries, retryBaseDelay, retryMaxDelay]
        intro j hj
        interval_cases j <;> decide

/-- Witness for claim C1: a concrete operation that fails once and then
succeeds is retried exactly once, after a 1000 ms delay. -/
theorem claim_C1_witness :
    (withRetry (fun i => if i = 0 then (Except.error 0 : Except Nat Nat) else .ok 7)
      retryMaxRetries retryBaseDelay retryMaxDelay).result = .ok 7 ∧
    (withRetry (fun i => if i = 0 then (Except.error 0 : Except Nat Nat) else .ok 7)
      retryMaxRetries retryBaseDelay retryMaxDelay).attempts = 2 ∧
    (withRetry (fun i => if i = 0 then (Except.error 0 : Except Nat Nat) else .ok 7)
      retryMaxRetries retryBaseDelay retryMaxDelay).delays = [1000] :=
  (claim_C1 (fun i => if i = 0 then (Except.error 0 : Except Nat Nat) else .ok 7)).2.2.1
    0 7 rfl rfl

/-- Soundness of splitAtFirst: a successful split decomposes the list
and the prefix avoids the splitting character. -/
theorem splitAtFirst_sound (x : Char) (l : Str) :
    ∀ a b, splitAtFirst x l = some (a, b) → l = a ++ x :: b ∧ x ∉ a := by
  induction l with
  | nil => intro a b h; simp [splitAtFirst] at h
  | cons c cs ih =>
    intro a b h
    by_cases hc : c = x
    · rw [splitAtFirst, if_pos hc] at h
      obtain ⟨rfl, rfl⟩ := Prod.mk.injEq .. ▸ Option.some.injEq .. ▸ h
      simp [hc]
    · rw [splitAtFirst, if_neg hc] at h
      cases hs : splitAtFirst x cs with
      | none => rw [hs] at h; simp at h
      | some p =>
        obtain ⟨a', b'⟩ := p
        rw [hs] at h
        simp only [Option.some.injEq, Prod.mk.injEq] at h
        obtain ⟨rfl, rfl⟩ := h
        obtain ⟨hcs, hna⟩ := ih a' b' hs
        constructor
        · simp [hcs]
        · intro hm
          rcases List.mem_cons.1 hm with rfl | hm'
          · exact hc rfl
          · exact hna hm'

/-- Completeness of splitAtFirst on a decomposition whose prefix avoids
the splitting character. -/
theorem splitAtFirst_of_append (x : Char) (a b : Str) (ha : x ∉ a) :
    splitAtFirst x (a ++ x :: b) = some (a, b) := by
  induction a with
  | nil => simp [splitAtFirst]
  | cons c cs ih =>
    have hc : ¬ c = x := fun h => ha (by simp [h])
    simp only [List.cons_append, splitAtFirst, if_neg hc, List.append_eq]
    rw [ih (fun h => ha (List.mem_cons_of_mem _ h))]

/-- splitAtFirst misses exactly when the character is absent. -/
theorem splitAtFirst_none (x : Char) (l : Str) (hx : x ∉ l) : splitAtFirst x l = none := by
  induction l with
  | nil => rfl
  | cons c cs ih =>
    have hc : ¬ c = x := fun h => hx (by simp [h])
    simp only [splitAtFirst, if_neg hc]
    rw [ih (fun h => hx (List.mem_cons_of_mem _ h))]

/-- dotBeforeLast decides the existence of a dot with something after it. -/
theorem dotBeforeLast_iff (l : Str) :
    dotBeforeLast l = true ↔ ∃ b c : Str, l = b ++ '.' :: c ∧ c ≠ [] := by
  induction l using dotBeforeLast.induct with
  | case1 =>
    constructor
    · intro h; exact absurd h (by decide)
    · rintro ⟨b, c, h, hc⟩
      exact absurd (congrArg List.length h) (by simp; omega)
  | case2 c =>
    constructor
    · intro h; simp [dotBeforeLast] at h
    · rintro ⟨b, cc, h, hcc⟩
      have hl := congrArg List.length h
      simp at hl
      have hb : b.length = 0 ∧ cc.length = 0 := by omega
      exact absurd (List.eq_nil_of_length_eq_zero hb.2) hcc
  | case3 c c2 t ih =>
    simp only [dotBeforeLast, Bool.or_eq_true, decide_eq_true_eq]
    constructor
    · rintro (rfl | hd)
      · exact ⟨[], c2 :: t, rfl, by simp⟩
      · obtain ⟨b, cc, hct, hcc⟩ := ih.1 hd
        exact ⟨c :: b, cc, by simp [hct], hcc⟩
    · rintro ⟨b, cc, h, hcc⟩
      cases b with
      | nil =>
        left
        exact (List.cons.injEq .. ▸ h).1
      | cons y ys =>
        right
        simp only [List.cons_append, List.cons.injEq] at h
        exact ih.2 ⟨ys, cc, h.2, hcc⟩

/-- hasInnerDot decides the existence of a dot that is neither first
nor last. -/
theorem hasInnerDot_iff (l : Str) :
    hasInnerDot l = true ↔ ∃ b c : Str, l = b ++ '.' :: c ∧ b ≠ [] ∧ c ≠ [] := by
  cases l with
  | nil =>
    constructor
    · intro h; exact absurd h (by decide)
    · rintro ⟨b, c, h, hb, hc⟩
      exact absurd (congrArg List.length h) (by simp; omega)
  | cons x t =>
    simp only [hasInnerDot]
    rw [dotBeforeLast_iff]
    constructor
    · rintro ⟨b, c, rfl, hc⟩
      exact ⟨x :: b, c, rfl, by simp, hc⟩
    · rintro ⟨b, c, h, hb, hc⟩
      cases b with
      | nil => exact absurd rfl hb
      | cons y ys =>
        simp only [List.cons_append, List.cons.injEq] at h
        exact ⟨ys, c, h.2, hc⟩

/-- allEmailClass is the Boolean form of noAtNoWs. -/
theorem allEmailClass_iff (l : Str) : allEmailClass l = true ↔ noAtNoWs l := by
  simp [allEmailClass, noAtNoWs, inEmailClass, List.all_eq_true]

/-- The executable validateEmail decides membership in the regex
`^[^\s@]+@[^\s@]+\.[^\s@]+$`. -/
theorem validateEmail_iff (r : Str) : validateEmail r = true ↔ emailRegexShape r := by
  constructor
  · intro h
    unfold validateEmail at h
    cases hs : splitAtFirst '@' r with
    | none => rw [hs] at h; simp at h
    | some p =>
      obtain ⟨a, rest⟩ := p
      rw [hs] at h
      simp only [Bool.and_eq_true] at h
      obtain ⟨⟨⟨hne, hca⟩, hcr⟩, hdot⟩ := h
      obtain ⟨hr, _⟩ := splitAtFirst_sound '@' r a rest hs
      obtain ⟨b, c, hrest, hb, hc⟩ := (hasInnerDot_iff rest).1 hdot
      have hnr := (allEmailClass_iff rest).1 hcr
      refine ⟨a, b, c, by rw [hr, hrest], ?_, hb, hc, (allEmailClass_iff a).1 hca, ?_, ?_⟩
      · intro hae
        rw [hae] at hne
        simp at hne
      · intro x hx
        exact hnr x (by rw [hrest]; exact List.mem_append_left _ hx)
      · intro x hx
        exact hnr x (by rw [hrest]; exact List.mem_append_right _ (List.mem_cons_of_mem _ hx))
  · rintro ⟨a, b, c, rfl, ha, hb, hc, hna, hnb, hnc⟩
    unfold validateEmail
    rw [splitAtFirst_of_append '@' a _ (fun hm => (hna '@' hm).1 rfl)]
    simp only [Bool.and_eq_true]
    refine ⟨⟨⟨by simpa using ha, (allEmailClass_iff a).2 hna⟩, ?_⟩, ?_⟩
    · apply (allEmailClass_iff _).2
      intro x hx
      rcases List.mem_append.1 hx with hxb | hxc
      · exact hnb x hxb
      · rcases List.mem_cons.1 hxc with rfl | hxc'
        · exact ⟨by decide, by decide⟩
        · exact hnc x hxc'
    · exact (hasInnerDot_iff _).2 ⟨b, c, rfl, hb, hc⟩

/-- A string without `@` never validates. -/
theorem validateEmail_no_at (r : Str) (h : '@' ∉ r) : validateEmail r = false := by
  unfold validateEmail
  rw [splitAtFirst_none '@' r h]

/-- appendUserText changes only the dialogue log and the stored last
user message. -/
theorem appendUserText_fields (s : Session) (t : Str) :
    (appendUserText s t).bookingState = s.bookingState ∧
    (appendUserText s t).preferred_time = s.preferred_time ∧
    (appendUserText s t).email = s.email ∧
    (appendUserText s t).conversationId = s.conversationId ∧
    (appendUserText s t).phoneNumber = s.phoneNumber ∧
    (appendUserText s t).sendingFunctionCallOutput = s.sendingFunctionCallOutput := by
  unfold appendUserText
  split <;> simp

/-- In `awaiting_email`, an invalid reconstructed email leaves the
session unchanged apart from the dialogue append (a re-prompt). -/
theorem handleUserTranscriptFlow_invalid (env : Oracle) (s1 : Session) (t : Str)
    (h : s1.bookingState = .awaiting_email)
    (hv : validateEmail (reconstructEmail t) = false) :
    handleUserTranscriptFlow env s1 t =
      (s1, [Effect.oaiSend (.speak emailInvalidPrompt)] ++
        updateLastConversation s1 s1.lastUserMessage none) := by
  unfold handleUserTranscriptFlow
  rw [h, hv]
  simp

/-- Counterexample to claim C2 as stated: the input
"a at b at c dot d" reconstructs to "a@b\x40c.d", which satisfies the
claim's `local@domain.tld` shape (its parenthetical restricts only the
local part), yet validateEmail rejects it. -/
theorem claim_C2_counterexample :
    emailShapeClaim (reconstructEmail "a at b at c dot d".toList) ∧
    validateEmail (reconstructEmail "a at b at c dot d".toList) = false := by
  constructor
  · exact ⟨"a".toList, "b@c".toList, "d".toList, by decide, by decide,
      (allEmailClass_iff _).1 (by decide), by decide, by decide⟩
  · decide

/-- Claim C2 (amended): reconstruction followed by the validity check
accepts exactly the inputs whose reconstructed form decomposes as
`local@domain.tld` with all three parts nonempty and free of `@` and
whitespace (not just the local part); any input whose reconstruction
contains no `@` is rejected; and a rejected input in `awaiting_email`
leaves the booking state in `awaiting_email`. -/
theorem claim_C2_amended (s : Str) :
    (validateEmail (reconstructEmail s) = true ↔ emailRegexShape (reconstructEmail s))
    ∧ ('@' ∉ reconstructEmail s → validateEmail (reconstructEmail s) = false)
    ∧ (∀ (env : Oracle) (sess : Session), sess.bookingState = .awaiting_email →
        validateEmail (reconstructEmail s) = false →
        (step env sess (.oai (.userTranscript s))).1.bookingState = .awaiting_email) := by
  refine ⟨validateEmail_iff _, validateEmail_no_at _, ?_⟩
  intro env sess hbs hv
  show (handleUserTranscript env sess s).1.bookingState = _
  unfold handleUserTranscript
  rw [handleUserTranscriptFlow_invalid env _ s
    ((appendUserText_fields sess s).1.trans hbs) hv]
  exact (appendUserText_fields sess s).1.trans hbs

/-- Witness for the amended claim C2: a spelled-out address is accepted
and decomposes; an address without an `@`-equivalent is rejected; and
rejection keeps the session in `awaiting_email`. -/
theorem claim_C2_amended_witness :
    validateEmail (reconstructEmail "j o h n at example dot com".toList) = true ∧
    validateEmail (reconstructEmail "john example dot com".toList) = false ∧
    (step noOracle { initialSession with bookingState := .awaiting_email }
      (.oai (.userTranscript "john example dot com".toList))).1.bookingState =
      .awaiting_email := by
  refine ⟨?_, ?_, ?_⟩
  · exact (claim_C2_amended "j o h n at example dot com".toList).1.2
      ⟨"john".toList, "example".toList, "com".toList, by decide, by decide, by decide,
       by decide, (allEmailClass_iff _).1 (by decide), (allEmailClass_iff _).1 (by decide),
       (allEmailClass_iff _).1 (by decide)⟩
  · exact (claim_C2_amended "john example dot com".toList).2.1 (by decide)
  · exact (claim_C2_amended "john example dot com".toList).2.2 noOracle
      { initialSession with bookingState := .awaiting_email } rfl (by decide)

/-- The success Boolean of bookTrainingSession depends only on the
oracle and the arguments, not on the session. -/
theorem bookTrainingSession_fst_indep (env : Oracle) (s s' : Session)
    (pt em : Option Str) :
    (bookTrainingSession env s pt em).1 = (bookTrainingSession env s' pt em).1 := by
  unfold bookTrainingSession
  cases pt with
  | none => rfl
  | some t =>
    cases env.calendarEvent with
    | none => rfl
    | some ev => cases hb : env.bookingOk <;> simp [hb]

/-- bookTrainingSession attempts the calendar insert at most once. -/
theorem bookTrainingSession_calendar_le (env : Oracle) (s : Session)
    (pt em : Option Str) :
    countCalendarAttempts (bookTrainingSession env s pt em).2 ≤ 1 := by
  unfold bookTrainingSession countCalendarAttempts
  cases pt with
  | none => simp
  | some t =>
    cases env.calendarEvent with
    | none => simp [isCalendarEff, List.countP_cons, List.countP_nil]
    | some ev =>
      cases hb : env.bookingOk <;>
        simp [hb, isCalendarEff, List.countP_cons, List.countP_nil]

/-- askForEmail either moves to `awaiting_email` changing nothing else,
or stores the looked-up email and moves to `confirm_existing_email`. -/
theorem askForEmail_state (env : Oracle) (s : Session) :
    (askForEmail env s).1 = { s with bookingState := .awaiting_email } ∨
    ∃ em, (askForEmail env s).1 =
      { s with email := some em, bookingState := .confirm_existing_email } := by
  unfold askForEmail
  cases henv : env.user with
  | none => left; rfl
  | some u =>
    cases hem : u.email with
    | none => left; simp [hem]
    | some em => right; exact ⟨em, by simp [hem]⟩

/-- handleEmailConfirmation ends in `idle` (after a commit attempt) or
re-enters email collection via askForEmail. -/
theorem handleEmailConfirmation_state (env : Oracle) (s : Session)
    (conf : Str) (em : Option Str) :
    (handleEmailConfirmation env s conf em).1 = { s with bookingState := .idle } ∨
    (handleEmailConfirmation env s conf em).1 = { s with bookingState := .awaiting_email } ∨
    ∃ em2, (handleEmailConfirmation env s conf em).1 =
      { s with email := some em2, bookingState := .confirm_existing_email } := by
  unfold handleEmailConfirmation
  by_cases hc : conf = yesStr
  · cases hb : (bookTrainingSession env s s.preferred_time em).1 <;> simp [hc, hb]
  · simp only [if_neg hc]
    rcases askForEmail_state env s with h | ⟨em2, h⟩
    · right; left; exact h
    · right; right; exact ⟨em2, h⟩

/-- handleExistingEmailConfirmation ends in `idle` (commit attempt) or
`awaiting_email` (new email requested), never touching the stored
email or time. -/
theorem handleExistingEmailConfirmation_state (env : Oracle) (s : Session) (conf : Str) :
    (handleExistingEmailConfirmation env s conf).1 = { s with bookingState := .idle } ∨
    (handleExistingEmailConfirmation env s conf).1 =
      { s with bookingState := .awaiting_email } := by
  unfold handleExistingEmailConfirmation
  by_cases hc : containsStr yesStr conf
  · cases hb : (bookTrainingSession env s s.preferred_time s.email).1 <;> simp [hc, hb]
  · simp [hc]

/-- handleIncomingCall never touches the booking fields. -/
theorem handleIncomingCall_fields (env : Oracle) (s : Session) :
    (handleIncomingCall env s).1.bookingState = s.bookingState ∧
    (handleIncomingCall env s).1.preferred_time = s.preferred_time ∧
    (handleIncomingCall env s).1.email = s.email := by
  unfold handleIncomingCall
  cases s.callSid with
  | none => exact ⟨rfl, rfl, rfl⟩
  | some cid =>
    cases env.callPhone with
    | none => exact ⟨rfl, rfl, rfl⟩
    | some phone =>
      cases env.user with
      | none => exact ⟨rfl, rfl, rfl⟩
      | some u =>
        cases env.conv with
        | none => exact ⟨rfl, rfl, rfl⟩
        | some convId =>
          cases env.lastConvSummary with
          | none => exact ⟨rfl, rfl, rfl⟩
          | some lastSum => exact ⟨rfl, rfl, rfl⟩

/-- finalizeConversation writes no session field. -/
theorem finalizeConversation_fst (env : Oracle) (s : Session) :
    (finalizeConversation env s).1 = s := by
  unfold finalizeConversation
  cases s.conversationId with
  | none => rfl
  | some cid =>
    cases env.summary with
    | none => rfl
    | some sum => rfl

/-- Field discipline of the assistant-text booking flow: the preferred
time is written only out of `awaiting_time` (ending in `awaiting_email`
or `confirm_existing_email`); the email is written only out of
`awaiting_time` or `confirm_email`, ending in `confirm_existing_email`;
and this flow never enters `confirm_email`. -/
theorem handleContentDoneFlow_fields (env : Oracle) (s1 : Session) (content : Str) :
    ((handleContentDoneFlow env s1 content).1.preferred_time ≠ s1.preferred_time →
      s1.bookingState = .awaiting_time ∧
      ((handleContentDoneFlow env s1 content).1.bookingState = .awaiting_email ∨
       (handleContentDoneFlow env s1 content).1.bookingState = .confirm_existing_email))
    ∧ ((handleContentDoneFlow env s1 content).1.email ≠ s1.email →
      (s1.bookingState = .awaiting_time ∨ s1.bookingState = .confirm_email) ∧
      (handleContentDoneFlow env s1 content).1.bookingState = .confirm_existing_email)
    ∧ ((handleContentDoneFlow env s1 content).1.bookingState = .confirm_email →
      s1.bookingState = .confirm_email) := by
  unfold handleContentDoneFlow
  split
  · split
    · simp [askForSuitableTime]
    · simp
  · rename_i hbs
    split
    · rename_i t hp
      rcases askForEmail_state env { s1 with preferred_time := some t } with h | ⟨em, h⟩ <;>
        rw [h] <;> simp [hbs]
    · simp
  · rename_i hbs
    rcases handleEmailConfirmation_state env s1 (jsToLower (jsTrim content)) s1.email with
      h | h | ⟨em2, h⟩ <;> rw [h] <;> simp [hbs]
  · simp

/-- Field discipline of the content-done branch on a missing text
field, mirroring handleContentDoneFlow_fields: the preferred time is
written only out of `awaiting_time` (ending in `awaiting_email` or
`confirm_existing_email`), the email only out of `awaiting_time` or
`confirm_email` ending in `confirm_existing_email`, and
`confirm_email` is never entered. -/
theorem handleContentDoneNoText_fields (env : Oracle) (s1 : Session) :
    ((handleContentDoneNoText env s1).1.preferred_time ≠ s1.preferred_time →
      s1.bookingState = .awaiting_time ∧
      ((handleContentDoneNoText env s1).1.bookingState = .awaiting_email ∨
       (handleContentDoneNoText env s1).1.bookingState = .confirm_existing_email))
    ∧ ((handleContentDoneNoText env s1).1.email ≠ s1.email →
      (s1.bookingState = .awaiting_time ∨ s1.bookingState = .confirm_email) ∧
      (handleContentDoneNoText env s1).1.bookingState = .confirm_existing_email)
    ∧ ((handleContentDoneNoText env s1).1.bookingState = .confirm_email →
      s1.bookingState = .confirm_email) := by
  unfold handleContentDoneNoText
  split
  · simp
  · rename_i hbs
    split
    · simp
    · simp
    · rename_i t heq
      rcases askForEmail_state env { s1 with preferred_time := some t } with h | ⟨em, h⟩ <;>
        rw [h] <;> simp [hbs]
  · simp
  · simp

/-- The no-text content-done branch never touches the dialogue log. -/
theorem handleContentDoneNoText_dialogue (env : Oracle) (s1 : Session) :
    (handleContentDoneNoText env s1).1.fullDialogue = s1.fullDialogue := by
  unfold handleContentDoneNoText
  split
  · rfl
  · split
    · rfl
    · rfl
    · rename_i t heq
      rcases askForEmail_state env { s1 with preferred_time := some t } with h | ⟨em, h⟩ <;>
        rw [h]
  · rfl
  · rfl

/-- Field discipline of the user-transcript booking flow: additionally,
the validated transition into `confirm_email` stores exactly the
validated reconstructed email. -/
theorem handleUserTranscriptFlow_fields (env : Oracle) (s1 : Session) (t : Str) :
    ((handleUserTranscriptFlow env s1 t).1.preferred_time ≠ s1.preferred_time →
      s1.bookingState = .awaiting_time ∧
      ((handleUserTranscriptFlow env s1 t).1.bookingState = .awaiting_email ∨
       (handleUserTranscriptFlow env s1 t).1.bookingState = .confirm_existing_email))
    ∧ ((handleUserTranscriptFlow env s1 t).1.email ≠ s1.email →
      (s1.bookingState = .awaiting_time ∨ s1.bookingState = .awaiting_email ∨
       s1.bookingState = .confirm_email) ∧
      ((handleUserTranscriptFlow env s1 t).1.bookingState = .confirm_existing_email ∨
       ((handleUserTranscriptFlow env s1 t).1.bookingState = .confirm_email ∧
        ∃ em, (handleUserTranscriptFlow env s1 t).1.email = some em ∧
          validateEmail em = true)))
    ∧ ((handleUserTranscriptFlow env s1 t).1.bookingState = .confirm_email →
      s1.bookingState = .confirm_email ∨
      ∃ em, (handleUserTranscriptFlow env s1 t).1.email = some em ∧
        validateEmail em = true) := by
  unfold handleUserTranscriptFlow
  split
  · rename_i hbs
    split
    · rename_i pt hp
      rcases askForEmail_state env { s1 with preferred_time := some pt } with h | ⟨em, h⟩ <;>
        rw [h] <;> simp [hbs]
    · simp [hbs]
  · rename_i hbs
    split
    · rename_i hv
      simp [confirmEmail, hbs, hv]
    · simp [hbs]
  · rename_i hbs
    rcases handleEmailConfirmation_state env s1 (jsToLower (jsTrim t)) s1.email with
      h | h | ⟨em2, h⟩ <;> rw [h] <;> simp [hbs]
  · rename_i hbs
    rcases handleExistingEmailConfirmation_state env s1 (jsToLower (jsTrim t)) with
      h | h <;> rw [h] <;> simp [hbs]
  · rename_i hbs
    simp [hbs]

/-- appendAiText changes only the dialogue log. -/
theorem appendAiText_fields (s : Session) (content : Str) :
    (appendAiText s content).bookingState = s.bookingState ∧
    (appendAiText s content).preferred_time = s.preferred_time ∧
    (appendAiText s content).email = s.email :=
  ⟨rfl, rfl, rfl⟩

/-- Master field discipline of one step: `preferred_time` changes only
on a step out of `awaiting_time` ending in `awaiting_email` or
`confirm_existing_email`; `email` changes only on a step out of
`awaiting_time`, `awaiting_email` or `confirm_email` that ends in
`confirm_existing_email` or in `confirm_email` with a validated email;
and `confirm_email` is entered only with a validated email stored. -/
theorem step_booking_fields (env : Oracle) (s : Session) (e : Event) :
    ((step env s e).1.preferred_time ≠ s.preferred_time →
      s.bookingState = .awaiting_time ∧
      ((step env s e).1.bookingState = .awaiting_email ∨
       (step env s e).1.bookingState = .confirm_existing_email))
    ∧ ((step env s e).1.email ≠ s.email →
      (s.bookingState = .awaiting_time ∨ s.bookingState = .awaiting_email ∨
       s.bookingState = .confirm_email) ∧
      ((step env s e).1.bookingState = .confirm_existing_email ∨
       ((step env s e).1.bookingState = .confirm_email ∧
        ∃ em, (step env s e).1.email = some em ∧ validateEmail em = true)))
    ∧ ((step env s e).1.bookingState = .confirm_email →
      s.bookingState = .confirm_email ∨
      ∃ em, (step env s e).1.email = some em ∧ validateEmail em = true) := by
  cases e with
  | connOpen => simp [step] <;> try tauto
  | oaiClose =>
    cases hc : s.conversationId with
    | none => simp [step, hc] <;> try tauto
    | some cid => simp [step, hc, finalizeConversation_fst] <;> try tauto
  | tw te =>
    cases te with
    | media p =>
      cases p with
      | none => simp [step, handleTwilioMessage] <;> try tauto
      | some payload => by_cases ho : s.oaiOpen <;> simp [step, handleTwilioMessage, ho] <;> try tauto
    | start p =>
      cases p with
      | none => simp [step, handleTwilioMessage] <;> try tauto
      | some q =>
        obtain ⟨sid, cid⟩ := q
        simp [step, handleTwilioMessage] <;> try tauto
    | stop => simp [step, handleTwilioMessage, finalizeConversation_fst] <;> try tauto
    | other tag => simp [step, handleTwilioMessage] <;> try tauto
    | malformed => simp [step, handleTwilioMessage] <;> try tauto
  | oai oe =>
    cases oe with
    | sessionCreated => simp [step, handleOpenAiMessage] <;> try tauto
    | speechStarted => simp [step, handleOpenAiMessage] <;> try tauto
    | audioDelta d => cases d <;> simp [step, handleOpenAiMessage] <;> try tauto
    | audioTranscriptDone t =>
      cases t <;> simp [step, handleOpenAiMessage] <;> try tauto
    | unknown tag => simp [step, handleOpenAiMessage] <;> try tauto
    | malformed => simp [step, handleOpenAiMessage] <;> try tauto
    | sessionUpdated =>
      simp only [step, handleOpenAiMessage]
      split
      · have hf := handleIncomingCall_fields env { s with sessionReady := true }
        rw [hf.1, hf.2.1, hf.2.2]
        simp <;> try tauto
      · simp <;> try tauto
    | functionCallDone f =>
      cases f with
      | accessKb q =>
        cases hk : env.kbAnswer <;>
          simp [step, handleOpenAiMessage, handleFunctionCall, hk] <;> try tauto
      | schedule pt em =>
        cases hb : (bookTrainingSession env s pt em).1 <;>
          simp [step, handleOpenAiMessage, handleFunctionCall, hb] <;> try tauto
      | otherFn name => simp [step, handleOpenAiMessage, handleFunctionCall] <;> try tauto
    | contentDone content =>
      by_cases hf : s.sendingFunctionCallOutput
      · cases content <;> simp [step, handleOpenAiMessage, handleContentDone, hf] <;> try tauto
      · cases content with
        | some c =>
          have hl := handleContentDoneFlow_fields env (appendAiText s c) c
          have hfld := appendAiText_fields s c
          rw [hfld.1, hfld.2.1, hfld.2.2] at hl
          simp only [step, handleOpenAiMessage, handleContentDone, if_neg hf]
          exact ⟨hl.1,
            fun h => ⟨((hl.2.1 h).1).elim Or.inl (fun hc => Or.inr (Or.inr hc)),
              Or.inl (hl.2.1 h).2⟩,
            fun h => Or.inl (hl.2.2 h)⟩
        | none =>
          have hl := handleContentDoneNoText_fields env (appendAiText s jsUndefined)
          have hfld := appendAiText_fields s jsUndefined
          rw [hfld.1, hfld.2.1, hfld.2.2] at hl
          simp only [step, handleOpenAiMessage, handleContentDone, if_neg hf]
          exact ⟨hl.1,
            fun h => ⟨((hl.2.1 h).1).elim Or.inl (fun hc => Or.inr (Or.inr hc)),
              Or.inl (hl.2.1 h).2⟩,
            fun h => Or.inl (hl.2.2 h)⟩
    | userTranscript t =>
      have hl := handleUserTranscriptFlow_fields env (appendUserText s t) t
      have hfld := appendUserText_fields s t
      rw [hfld.1, hfld.2.1, hfld.2.2.1] at hl
      simp only [step, handleOpenAiMessage, handleUserTranscript]
      exact hl

/-- Claim C3: no handler assigns preferredTime or email while the
session's bookingState is idle, and every transition into
confirm_email occurs only with a nonempty email stored on the session. -/
theorem claim_C3 (env : Oracle) (s : Session) (e : Event) :
    (s.bookingState = .idle →
      (step env s e).1.preferred_time = s.preferred_time ∧
      (step env s e).1.email = s.email)
    ∧ ((step env s e).1.bookingState = .confirm_email →
      s.bookingState = .confirm_email ∨
      ∃ em, (step env s e).1.email = some em ∧ em ≠ []) := by
  obtain ⟨h1, h2, h3⟩ := step_booking_fields env s e
  constructor
  · intro hidle
    constructor
    · by_contra hne
      obtain ⟨hbs, _⟩ := h1 hne
      rw [hidle] at hbs
      exact absurd hbs (by decide)
    · by_contra hne
      obtain ⟨hset, _⟩ := h2 hne
      rcases hset with h | h | h <;> rw [hidle] at h <;> exact absurd h (by decide)
  · intro hce
    rcases h3 hce with h | ⟨em, hem, hv⟩
    · exact Or.inl h
    · refine Or.inr ⟨em, hem, ?_⟩
      intro hnil
      rw [hnil] at hv
      exact absurd hv (by decide)

/-- Witness for claim C3: from the initial (idle) session, a handled
event leaves preferredTime and email untouched. -/
theorem claim_C3_witness :
    (step noOracle initialSession .connOpen).1.preferred_time =
      initialSession.preferred_time ∧
    (step noOracle initialSession .connOpen).1.email = initialSession.email :=
  (claim_C3 noOracle initialSession .connOpen).1 rfl

/-- Counterexample to claim C8 as stated: with a stored email on file,
the user-transcript step out of `awaiting_time` stores the preferred
time while entering `confirm_existing_email`, not `awaiting_email`. -/
theorem claim_C8_counterexample :
    (step oracleStoredEmail sessionAwaitTime
      (.oai (.userTranscript "tomorrow".toList))).1.preferred_time =
        some "2025-01-07T15:00:00.000Z".toList ∧
    sessionAwaitTime.preferred_time = none ∧
    sessionAwaitTime.bookingState = .awaiting_time ∧
    (step oracleStoredEmail sessionAwaitTime
      (.oai (.userTranscript "tomorrow".toList))).1.bookingState =
        .confirm_existing_email := by
  exact ⟨by decide, rfl, rfl, by decide⟩

/-- Claim C8 (amended): preferredTime is assigned only on a transition
that leaves awaiting_time and enters awaiting_email or
confirm_existing_email; email is assigned only on a transition that
enters confirm_email or confirm_existing_email. -/
theorem claim_C8_amended (env : Oracle) (s : Session) (e : Event) :
    ((step env s e).1.preferred_time ≠ s.preferred_time →
      s.bookingState = .awaiting_time ∧
      ((step env s e).1.bookingState = .awaiting_email ∨
       (step env s e).1.bookingState = .confirm_existing_email))
    ∧ ((step env s e).1.email ≠ s.email →
      (step env s e).1.bookingState = .confirm_email ∨
      (step env s e).1.bookingState = .confirm_existing_email) := by
  obtain ⟨h1, h2, _⟩ := step_booking_fields env s e
  exact ⟨h1, fun h => ((h2 h).2).elim Or.inr (fun hc => Or.inl hc.1)⟩

/-- Witness for the amended claim C8 at the stored-email scenario. -/
theorem claim_C8_amended_witness :
    sessionAwaitTime.bookingState = .awaiting_time ∧
    ((step oracleStoredEmail sessionAwaitTime
        (.oai (.userTranscript "tomorrow".toList))).1.bookingState = .awaiting_email ∨
     (step oracleStoredEmail sessionAwaitTime
        (.oai (.userTranscript "tomorrow".toList))).1.bookingState =
          .confirm_existing_email) :=
  (claim_C8_amended oracleStoredEmail sessionAwaitTime
    (.oai (.userTranscript "tomorrow".toList))).1 (by decide)

/-- Counterexample to claim C4 as stated: after the telephony stop
event has already finalized the conversation, the model-connection
close handler finalizes again, repeating the summary request and the
conversation persistence - the second invocation is not a no-op
(finalizeConversation never clears conversationId). -/
theorem claim_C4_counterexample :
    (step oracleSummary (runEvents oracleSummary sessionConvSet [.tw .stop]).1
      .oaiClose).2 ≠ [] ∧
    Effect.summaryRequest sessionConvSet.fullDialogue ∈
      (step oracleSummary (runEvents oracleSummary sessionConvSet [.tw .stop]).1
        .oaiClose).2 ∧
    Effect.db (.dbFinalizeConversation "CA123".toList sessionConvSet.fullDialogue
        "The user booked nothing.".toList) ∈
      (step oracleSummary (runEvents oracleSummary sessionConvSet [.tw .stop]).1
        .oaiClose).2 := by
  exact ⟨by decide, by decide, by decide⟩

/-- Claim C4 (amended): invoking finalizeConversation with no
conversationId is a no-op; finalizeConversation leaves the session
unchanged (in particular the conversationId is never cleared), so a
second invocation for the same call repeats the same summary
generation and persistence effects rather than being a no-op. -/
theorem claim_C4_amended (env : Oracle) (s : Session) :
    (s.conversationId = none → finalizeConversation env s = (s, []))
    ∧ (finalizeConversation env s).1 = s
    ∧ (finalizeConversation env (finalizeConversation env s).1).2 =
        (finalizeConversation env s).2 := by
  refine ⟨?_, finalizeConversation_fst env s, ?_⟩
  · intro h
    unfold finalizeConversation
    rw [h]
  · rw [finalizeConversation_fst env s]

/-- Witness for the amended claim C4 at a session with no conversation id. -/
theorem claim_C4_amended_witness :
    finalizeConversation noOracle initialSession = (initialSession, []) :=
  (claim_C4_amended noOracle initialSession).1 rfl

/-- Claim C6: for an event sequence [audio fragment A,
user-speech-started, audio fragment B] on one session's model
connection, the telephony clear frame and the model-side cancel are
both issued before fragment B is forwarded (the effect trace is
exactly media A, clear, cancel, media B). -/
theorem claim_C6 (env : Oracle) (s : Session) (A B : Str) :
    (runEvents env s [.oai (.audioDelta (some A)), .oai .speechStarted,
        .oai (.audioDelta (some B))]).2 =
      [Effect.twSend (.media s.streamSid A),
       Effect.twSend (.clear s.streamSid), Effect.oaiSend .cancelResponse,
       Effect.twSend (.media s.streamSid B)] := rfl

/-- Counterexample to claim C9 as stated: a `response.content.done`
frame whose `content` field is missing is a recognized tag lacking an
expected field, yet the handler mutates the session - the template
literal at src/index.js:523 appends the line "AI: undefined" to
fullDialogue before the `.toLowerCase()` access throws. -/
theorem claim_C9_counterexample :
    (step noOracle initialSession (.oai (.contentDone none))).1.fullDialogue =
      "AI: undefined\n".toList ∧
    initialSession.fullDialogue = [] ∧
    (step noOracle initialSession (.oai (.contentDone none))).1.fullDialogue ≠
      initialSession.fullDialogue :=
  ⟨by decide, rfl, by decide⟩

/-- Claim C9 (amended): unparseable frames, unknown type or event tags,
recognized tags whose nested payload object is missing (an audio delta
without its delta, a media or start frame without its payload, an
unknown function name) are dropped with no state mutation and no
effect, and the call continues.  However, a `response.content.done` or
`response.audio_transcript.done` frame lacking its text field does
mutate the session: the JavaScript template literal coerces the missing
value, so the line "AI: undefined" is appended to fullDialogue before
any later field access throws into the handler catch block; the call
still continues.  (Log entries are not modelled.) -/
theorem claim_C9_amended (env : Oracle) (s : Session) (tag name : Str) :
    (step env s (.oai .malformed) = (s, []) ∧
     step env s (.oai (.unknown tag)) = (s, []) ∧
     step env s (.oai (.audioDelta none)) = (s, []) ∧
     step env s (.oai (.functionCallDone (.otherFn name))) = (s, []) ∧
     step env s (.tw .malformed) = (s, []) ∧
     step env s (.tw (.other tag)) = (s, []) ∧
     step env s (.tw (.media none)) = (s, []) ∧
     step env s (.tw (.start none)) = (s, []))
    ∧ (s.sendingFunctionCallOutput = false →
       (step env s (.oai (.contentDone none))).1.fullDialogue =
         s.fullDialogue ++ "AI: ".toList ++ jsUndefined ++ ['\n'])
    ∧ (step env s (.oai (.audioTranscriptDone none))).1.fullDialogue =
        s.fullDialogue ++ "AI: ".toList ++ jsUndefined ++ ['\n'] := by
  refine ⟨⟨rfl, rfl, rfl, rfl, rfl, rfl, rfl, rfl⟩, ?_, rfl⟩
  intro hf
  show (handleContentDone env s none).1.fullDialogue = _
  unfold handleContentDone
  rw [if_neg (by simp [hf])]
  exact handleContentDoneNoText_dialogue env (appendAiText s jsUndefined)

/-- Witness for the amended claim C9: from the initial session, the
content-done frame without its field appends exactly "AI: undefined". -/
theorem claim_C9_amended_witness :
    (step noOracle initialSession (.oai (.contentDone none))).1.fullDialogue =
      initialSession.fullDialogue ++ "AI: ".toList ++ jsUndefined ++ ['\n'] :=
  (claim_C9_amended noOracle initialSession [] []).2.1 rfl

/-- Claim C10: bookTrainingSession with an absent preferred time
returns false and makes no external call at all: no calendar insert,
no booking record, no user email update. -/
theorem claim_C10 (env : Oracle) (s : Session) (em : Option Str) :
    bookTrainingSession env s none em = (false, []) := rfl

/-- updateLastConversation emits no configuration payload. -/
theorem cPSU_updateLastConversation (s : Session) (q a : Option Str) :
    List.countP isSessionUpdateEff (updateLastConversation s q a) = 0 := by
  unfold updateLastConversation
  cases s.conversationId <;> simp [isSessionUpdateEff]

/-- bookTrainingSession emits no configuration payload. -/
theorem cPSU_book (env : Oracle) (s : Session) (pt em : Option Str) :
    List.countP isSessionUpdateEff (bookTrainingSession env s pt em).2 = 0 := by
  unfold bookTrainingSession
  cases pt with
  | none => simp
  | some t =>
    cases env.calendarEvent with
    | none => simp [isSessionUpdateEff]
    | some ev => cases hb : env.bookingOk <;> simp [hb, isSessionUpdateEff]

/-- askForEmail emits no configuration payload. -/
theorem cPSU_askForEmail (env : Oracle) (s : Session) :
    List.countP isSessionUpdateEff (askForEmail env s).2 = 0 := by
  unfold askForEmail
  cases env.user with
  | none => simp [isSessionUpdateEff]
  | some u => cases hem : u.email <;> simp [hem, isSessionUpdateEff]

/-- handleEmailConfirmation emits no configuration payload. -/
theorem cPSU_handleEmailConfirmation (env : Oracle) (s : Session)
    (conf : Str) (em : Option Str) :
    List.countP isSessionUpdateEff (handleEmailConfirmation env s conf em).2 = 0 := by
  unfold handleEmailConfirmation
  by_cases hc : conf = yesStr
  · cases hb : (bookTrainingSession env s s.preferred_time em).1 <;>
      simp [hc, hb, List.countP_append, cPSU_book, isSessionUpdateEff]
  · simp [hc, cPSU_askForEmail]

/-- handleExistingEmailConfirmation emits no configuration payload. -/
theorem cPSU_handleExisting (env : Oracle) (s : Session) (conf : Str) :
    List.countP isSessionUpdateEff (handleExistingEmailConfirmation env s conf).2 = 0 := by
  unfold handleExistingEmailConfirmation
  by_cases hc : containsStr yesStr conf
  · cases hb : (bookTrainingSession env s s.preferred_time s.email).1 <;>
      simp [hc, hb, List.countP_append, cPSU_book, isSessionUpdateEff]
  · simp [hc, isSessionUpdateEff]

/-- handleIncomingCall emits no configuration payload. -/
theorem cPSU_handleIncomingCall (env : Oracle) (s : Session) :
    List.countP isSessionUpdateEff (handleIncomingCall env s).2 = 0 := by
  unfold handleIncomingCall
  cases s.callSid with
  | none => simp
  | some cid =>
    cases env.callPhone with
    | none => simp
    | some phone =>
      cases env.user with
      | none => simp [isSessionUpdateEff]
      | some u =>
        cases env.conv with
        | none => simp [isSessionUpdateEff]
        | some convId =>
          cases env.lastConvSummary with
          | none => simp [isSessionUpdateEff]
          | some lastSum => cases u.name <;> simp [isSessionUpdateEff]

/-- finalizeConversation emits no configuration payload. -/
theorem cPSU_finalize (env : Oracle) (s : Session) :
    List.countP isSessionUpdateEff (finalizeConversation env s).2 = 0 := by
  unfold finalizeConversation
  cases s.conversationId with
  | none => simp
  | some cid =>
    cases env.summary with
    | none => simp [isSessionUpdateEff]
    | some sum =>
      cases env.nameExtract <;> cases env.emailExtract <;>
        simp [List.countP_append, isSessionUpdateEff]

/-- The content-done booking flow emits no configuration payload. -/
theorem cPSU_contentFlow (env : Oracle) (s1 : Session) (content : Str) :
    List.countP isSessionUpdateEff (handleContentDoneFlow env s1 content).2 = 0 := by
  unfold handleContentDoneFlow
  split
  · split <;>
      simp [askForSuitableTime, List.countP_append, cPSU_updateLastConversation,
        isSessionUpdateEff]
  · split
    · simp [List.countP_append, cPSU_updateLastConversation, cPSU_askForEmail,
        isSessionUpdateEff]
    · simp [List.countP_append, cPSU_updateLastConversation, isSessionUpdateEff]
  · simp [List.countP_append, cPSU_updateLastConversation, cPSU_handleEmailConfirmation]
  · simp [cPSU_updateLastConversation]

/-- The no-text content-done branch emits no configuration payload. -/
theorem cPSU_contentNoText (env : Oracle) (s1 : Session) :
    List.countP isSessionUpdateEff (handleContentDoneNoText env s1).2 = 0 := by
  unfold handleContentDoneNoText
  split
  · simp [cPSU_updateLastConversation]
  · split
    · simp [cPSU_updateLastConversation]
    · simp [List.countP_append, cPSU_updateLastConversation, isSessionUpdateEff]
    · simp [List.countP_append, cPSU_updateLastConversation, cPSU_askForEmail,
        isSessionUpdateEff]
  · simp [cPSU_updateLastConversation]
  · simp [cPSU_updateLastConversation]

/-- The user-transcript booking flow emits no configuration payload. -/
theorem cPSU_userFlow (env : Oracle) (s1 : Session) (t : Str) :
    List.countP isSessionUpdateEff (handleUserTranscriptFlow env s1 t).2 = 0 := by
  unfold handleUserTranscriptFlow
  split
  · split
    · simp [List.countP_append, cPSU_updateLastConversation, cPSU_askForEmail,
        isSessionUpdateEff]
    · simp [List.countP_append, cPSU_updateLastConversation, isSessionUpdateEff]
  · split
    · simp [confirmEmail, List.countP_append, cPSU_updateLastConversation,
        isSessionUpdateEff]
    · simp [List.countP_append, cPSU_updateLastConversation, isSessionUpdateEff]
  · simp [List.countP_append, cPSU_updateLastConversation, cPSU_handleEmailConfirmation]
  · simp [List.countP_append, cPSU_updateLastConversation, cPSU_handleExisting]
  · simp [cPSU_updateLastConversation]

/-- One step sends the configuration payload exactly once on the two
triggers (connection open and `session.created`) and never otherwise. -/
theorem step_sessionUpdate_count (env : Oracle) (s : Session) (e : Event) :
    countSessionUpdates (step env s e).2 = (if isConfigTrigger e then 1 else 0) := by
  cases e with
  | connOpen => simp [step, countSessionUpdates, isConfigTrigger, isSessionUpdateEff]
  | oaiClose =>
    cases hc : s.conversationId <;>
      simp [step, hc, countSessionUpdates, isConfigTrigger, cPSU_finalize]
  | tw te =>
    cases te with
    | media p =>
      cases p with
      | none => simp [step, handleTwilioMessage, countSessionUpdates, isConfigTrigger]
      | some payload =>
        by_cases ho : s.oaiOpen <;>
          simp [step, handleTwilioMessage, ho, countSessionUpdates, isConfigTrigger,
            isSessionUpdateEff]
    | start p =>
      cases p with
      | none => simp [step, handleTwilioMessage, countSessionUpdates, isConfigTrigger]
      | some q =>
        obtain ⟨sid, cid⟩ := q
        simp [step, handleTwilioMessage, countSessionUpdates, isConfigTrigger]
    | stop =>
      simp [step, handleTwilioMessage, countSessionUpdates, isConfigTrigger, cPSU_finalize]
    | other tag => simp [step, handleTwilioMessage, countSessionUpdates, isConfigTrigger]
    | malformed => simp [step, handleTwilioMessage, countSessionUpdates, isConfigTrigger]
  | oai oe =>
    cases oe with
    | sessionCreated =>
      simp [step, handleOpenAiMessage, countSessionUpdates, isConfigTrigger,
        isSessionUpdateEff]
    | sessionUpdated =>
      simp only [step, handleOpenAiMessage]
      split <;>
        simp [countSessionUpdates, isConfigTrigger, cPSU_handleIncomingCall]
    | speechStarted =>
      simp [step, handleOpenAiMessage, countSessionUpdates, isConfigTrigger,
        isSessionUpdateEff]
    | audioDelta d =>
      cases d <;>
        simp [step, handleOpenAiMessage, countSessionUpdates, isConfigTrigger,
          isSessionUpdateEff]
    | functionCallDone f =>
      cases f with
      | accessKb q =>
        cases hk : env.kbAnswer <;>
          simp [step, handleOpenAiMessage, handleFunctionCall, hk, countSessionUpdates,
            isConfigTrigger, isSessionUpdateEff]
      | schedule pt em =>
        cases hb : (bookTrainingSession env s pt em).1 <;>
          simp [step, handleOpenAiMessage, handleFunctionCall, hb, countSessionUpdates,
            isConfigTrigger, List.countP_append, cPSU_book, isSessionUpdateEff]
      | otherFn name =>
        simp [step, handleOpenAiMessage, handleFunctionCall, countSessionUpdates,
          isConfigTrigger]
    | contentDone content =>
      by_cases hf : s.sendingFunctionCallOutput <;> cases content <;>
        simp [step, handleOpenAiMessage, handleContentDone, hf, countSessionUpdates,
          isConfigTrigger, cPSU_contentFlow, cPSU_contentNoText]
    | audioTranscriptDone t =>
      cases t <;>
        simp [step, handleOpenAiMessage, countSessionUpdates, isConfigTrigger,
          cPSU_updateLastConversation]
    | userTranscript t =>
      simp [step, handleOpenAiMessage, handleUserTranscript, countSessionUpdates,
        isConfigTrigger, cPSU_userFlow]
    | unknown tag =>
      simp [step, handleOpenAiMessage, countSessionUpdates, isConfigTrigger]
    | malformed =>
      simp [step, handleOpenAiMessage, countSessionUpdates, isConfigTrigger]

/-- Counterexample to claim C5 as stated: in the normal handshake of a
single connection (open, then the remote `session.created` event, with
no report of an unapplied configuration), the configuration payload is
sent twice, not exactly once. -/
theorem claim_C5_counterexample :
    countSessionUpdates (runEvents noOracle initialSession
      [Event.connOpen, .oai .sessionCreated]).2 = 2 ∧
    ¬ countSessionUpdates (runEvents noOracle initialSession
      [Event.connOpen, .oai .sessionCreated]).2 ≤ 1 := by
  exact ⟨by decide, by decide⟩

/-- Claim C5 (amended): over any event sequence of one session, the
number of configuration payload (`session.update`) sends equals the
number of connection-open triggers plus the number of
`session.created` events received: it is sent once per trigger, and
never re-sent on any other event (in particular not on the
`session.updated` acknowledgment). -/
theorem claim_C5_amended (env : Oracle) (s : Session) (evs : List Event) :
    countSessionUpdates (runEvents env s evs).2 = evs.countP isConfigTrigger := by
  induction evs generalizing s with
  | nil => simp [runEvents, countSessionUpdates]
  | cons e es ih =>
    simp only [runEvents, countSessionUpdates, List.countP_append, List.countP_cons]
    have h1 := step_sessionUpdate_count env s e
    have h2 := ih (step env s e).1
    simp only [countSessionUpdates] at h1 h2
    rw [h1, h2]
    split <;> omega

/-- handleEmailConfirmation on an affirmative reply whose booking
attempt fails: failure message, back to idle. -/
theorem handleEmailConfirmation_fail (env : Oracle) (s : Session) (em : Option Str)
    (hb : (bookTrainingSession env s s.preferred_time em).1 = false) :
    handleEmailConfirmation env s yesStr em =
      ({ s with bookingState := .idle },
       (bookTrainingSession env s s.preferred_time em).2 ++
       [Effect.oaiSend (.speak bookFailPrompt),
        Effect.db (.dbUpdateBookingState s.phoneNumber "idle".toList)]) := by
  unfold handleEmailConfirmation
  simp [hb]

/-- handleExistingEmailConfirmation on an affirmative reply whose
booking attempt fails: failure message, back to idle. -/
theorem handleExistingEmailConfirmation_fail (env : Oracle) (s : Session) (conf : Str)
    (hc : containsStr yesStr conf = true)
    (hb : (bookTrainingSession env s s.preferred_time s.email).1 = false) :
    handleExistingEmailConfirmation env s conf =
      ({ s with bookingState := .idle },
       (bookTrainingSession env s s.preferred_time s.email).2 ++
       [Effect.oaiSend (.speak bookFailPrompt),
        Effect.db (.dbUpdateBookingState s.phoneNumber "idle".toList)]) := by
  unfold handleExistingEmailConfirmation
  simp [hc, hb]

/-- updateLastConversation makes no calendar attempt. -/
theorem cCal_updateLastConversation (s : Session) (q a : Option Str) :
    List.countP isCalendarEff (updateLastConversation s q a) = 0 := by
  unfold updateLastConversation
  cases s.conversationId <;> simp [isCalendarEff]

/-- Claim C7: on every commit attempt whose booking fails (affirmed
confirmation in confirm_email, affirmed confirmation in
confirm_existing_email, or a schedule_training_session invocation), a
spoken failure message is emitted, the booking state returns to idle,
and the booking attempt itself is not retried: at most one calendar
attempt occurs in the step. -/
theorem claim_C7 (env : Oracle) (s : Session) (t : Str) (pt em : Option Str) :
    (s.bookingState = .confirm_email → jsToLower (jsTrim t) = yesStr →
      (bookTrainingSession env s s.preferred_time s.email).1 = false →
      (step env s (.oai (.userTranscript t))).1.bookingState = .idle ∧
      Effect.oaiSend (.speak bookFailPrompt) ∈ (step env s (.oai (.userTranscript t))).2 ∧
      countCalendarAttempts (step env s (.oai (.userTranscript t))).2 ≤ 1)
    ∧ (s.bookingState = .confirm_existing_email →
      containsStr yesStr (jsToLower (jsTrim t)) = true →
      (bookTrainingSession env s s.preferred_time s.email).1 = false →
      (step env s (.oai (.userTranscript t))).1.bookingState = .idle ∧
      Effect.oaiSend (.speak bookFailPrompt) ∈ (step env s (.oai (.userTranscript t))).2 ∧
      countCalendarAttempts (step env s (.oai (.userTranscript t))).2 ≤ 1)
    ∧ ((bookTrainingSession env s pt em).1 = false →
      (step env s (.oai (.functionCallDone (.schedule pt em)))).1.bookingState = .idle ∧
      Effect.oaiSend (.speak bookFailPrompt) ∈
        (step env s (.oai (.functionCallDone (.schedule pt em)))).2 ∧
      countCalendarAttempts (step env s (.oai (.functionCallDone (.schedule pt em)))).2 ≤ 1) := by
  have hfld := appendUserText_fields s t
  refine ⟨?_, ?_, ?_⟩
  · intro hbs hyes hb
    have hb1 : (bookTrainingSession env (appendUserText s t)
        (appendUserText s t).preferred_time (appendUserText s t).email).1 = false := by
      rw [hfld.2.1, hfld.2.2.1,
        bookTrainingSession_fst_indep env (appendUserText s t) s]
      exact hb
    have hcal := bookTrainingSession_calendar_le env (appendUserText s t)
      (appendUserText s t).preferred_time (appendUserText s t).email
    simp only [step, handleOpenAiMessage, handleUserTranscript]
    unfold handleUserTranscriptFlow
    rw [hfld.1, hbs, hyes]
    rw [handleEmailConfirmation_fail env (appendUserText s t)
      (appendUserText s t).email hb1]
    unfold countCalendarAttempts at hcal ⊢
    simp [List.countP_append, cCal_updateLastConversation, isCalendarEff]
    omega
  · intro hbs hyes hb
    have hb1 : (bookTrainingSession env (appendUserText s t)
        (appendUserText s t).preferred_time (appendUserText s t).email).1 = false := by
      rw [hfld.2.1, hfld.2.2.1,
        bookTrainingSession_fst_indep env (appendUserText s t) s]
      exact hb
    have hcal := bookTrainingSession_calendar_le env (appendUserText s t)
      (appendUserText s t).preferred_time (appendUserText s t).email
    simp only [step, handleOpenAiMessage, handleUserTranscript]
    unfold handleUserTranscriptFlow
    rw [hfld.1, hbs]
    rw [handleExistingEmailConfirmation_fail env (appendUserText s t)
      (jsToLower (jsTrim t)) hyes hb1]
    unfold countCalendarAttempts at hcal ⊢
    simp [List.countP_append, cCal_updateLastConversation, isCalendarEff]
    omega
  · intro hb
    have hcal := bookTrainingSession_calendar_le env s pt em
    simp only [step, handleOpenAiMessage, handleFunctionCall]
    unfold countCalendarAttempts at hcal ⊢
    simp [hb, List.countP_append, isCalendarEff]
    omega

/-- Witness for claim C7: with the calendar insert failing, an
affirmed confirmation in confirm_email yields the failure message, an
idle state, and a single calendar attempt. -/
theorem claim_C7_witness :
    (step noOracle sessionConfirmEmail (.oai (.userTranscript "yes".toList))).1.bookingState =
      .idle ∧
    Effect.oaiSend (.speak bookFailPrompt) ∈
      (step noOracle sessionConfirmEmail (.oai (.userTranscript "yes".toList))).2 ∧
    countCalendarAttempts
      (step noOracle sessionConfirmEmail (.oai (.userTranscript "yes".toList))).2 ≤ 1 :=
  (claim_C7 noOracle sessionConfirmEmail "yes".toList none none).1 rfl (by decide) (by decide)
